import Mathlib

/-!
Verification of the DABOps bundle generator: a shallow embedding of the
translation engine in src/bundle_generator.py and of the path-naming and
batch-orchestration logic in src/app.py, together with theorems settling
the frozen claims about the specification.

Python values that flow into the generated document are modelled by the
inductive type `Y` (None, strings, integers, booleans, lists, and
insertion-ordered dicts).  Python objects whose attributes the source
probes with hasattr/getattr are modelled as structures with `Option`
fields: `none` models an absent attribute, so `getattr(o, f, d)` becomes
`(o.f).getD d` and `hasattr(o, f) and o.f` becomes a match on `o.f`
(an object that is present is always truthy in Python; string-valued
attributes are additionally tested for non-emptiness, as Python does).
-/

/-- A Python value as it appears in the generated document tree:
None, str, int, bool, list, or an insertion-ordered dict. -/
inductive Y where
  | nil : Y
  | s : String → Y
  | i : Int → Y
  | b : Bool → Y
  | l : List Y → Y
  | m : List (String × Y) → Y

/-- `v is None` in Python. -/
def isNil : Y → Bool
  | .nil => true
  | _ => false

/-- `v is None or v == [] or v == \x7b\x7d` in Python (only the empty list
compares equal to `[]`, and only the empty dict compares equal to the
empty dict). -/
def pyEmptyOrNone : Y → Bool
  | .nil => true
  | .l [] => true
  | .m [] => true
  | _ => false

/-- `v == []` in Python. -/
def isEmptyList : Y → Bool
  | .l [] => true
  | _ => false

/-- The dict comprehension `\x7bk: v for k, v in d.items() if v is not None\x7d`
used at bundle_generator.py line 225 and inside `_convert_libraries`. -/
def cleanNone (kvs : List (String × Y)) : List (String × Y) :=
  kvs.filter fun kv => !(isNil kv.2)

/-- The dict comprehension dropping values that are `None`, `[]` or empty
dicts, used at bundle_generator.py lines 294-297, 382 and 400. -/
def cleanEmpty (kvs : List (String × Y)) : List (String × Y) :=
  kvs.filter fun kv => !(pyEmptyOrNone kv.2)

/-- The dict comprehension dropping values that are `None` or `[]`, used
for the maven branch of `_convert_libraries` (line 427). -/
def cleanNoneOrEmptyList (kvs : List (String × Y)) : List (String × Y) :=
  kvs.filter fun kv => !(isNil kv.2) && !(isEmptyList kv.2)

/-- Lift an optional attribute to a `Y` value, with `None` for absence:
models `getattr(o, f, None)` followed by use of the value in a dict. -/
def oY {α : Type} (f : α → Y) : Option α → Y
  | some v => f v
  | none => Y.nil

/-- Python dict lookup `d.get(k)` on an insertion-ordered dict. -/
def dictGet (kvs : List (String × Y)) (k : String) : Option Y :=
  (kvs.find? fun kv => kv.1 == k).map (·.2)

/-- Python dict assignment `d[k] = v`: replaces the value in place when
the key is present, otherwise appends the new pair at the end. -/
def dictSet (kvs : List (String × Y)) (k : String) (v : Y) : List (String × Y) :=
  if kvs.any fun kv => kv.1 == k then
    kvs.map fun kv => if kv.1 == k then (k, v) else kv
  else kvs ++ [(k, v)]

/-- The ordered key list of a dict value (and `[]` for non-dicts). -/
def topKeys : Y → List String
  | .m kvs => kvs.map (·.1)
  | _ => []

/-- Lookup of a key inside a dict-shaped `Y` value. -/
def yGet (d : Y) (k : String) : Option Y :=
  match d with
  | .m kvs => dictGet kvs k
  | _ => none

/-- Python string truthiness: a string is truthy iff it is non-empty. -/
def strTruthy (x : String) : Bool := !(x == "")

/-- `x.lower()` for the ASCII names handled by the generator. -/
def strLower (x : String) : String := String.mk (x.data.map Char.toLower)

/-- `x.replace(a, b)` for a single-character pattern and replacement,
which is how `_add_workflow_resources` uses `str.replace`. -/
def replaceChar (x : String) (a c : Char) : String :=
  String.mk (x.data.map fun ch => if ch = a then c else ch)

/-! ## Source data model (databricks SDK objects consumed by the generator) -/

/-- A `depends_on` entry of a Task. -/
structure TaskDep where
  task_key : String

/-- SDK NotebookTask as probed by `_convert_tasks`. -/
structure NotebookTask where
  notebook_path : String
  source : Option String := none
  base_parameters : Option (List (String × Y)) := none

/-- SDK PythonWheelTask as probed by `_convert_tasks`. -/
structure PythonWheelTask where
  package_name : String
  entry_point : String
  parameters : Option (List String) := none
  named_parameters : Option (List (String × Y)) := none

/-- SDK SparkJarTask as probed by `_convert_tasks`. -/
structure SparkJarTask where
  main_class_name : String
  parameters : Option (List String) := none

/-- SDK SparkPythonTask as probed by `_convert_tasks`. -/
structure SparkPythonTask where
  python_file : String
  parameters : Option (List String) := none
  source : Option String := none

/-- SDK SparkSubmitTask as probed by `_convert_tasks`. -/
structure SparkSubmitTask where
  parameters : List String

/-- SDK PipelineTask as probed by `_convert_tasks`. -/
structure PipelineTask where
  pipeline_id : String
  full_refresh : Option Bool := none

/-- SDK SqlTask as probed by `_convert_tasks`. -/
structure SqlTask where
  query : Option Y := none
  dashboard : Option Y := none
  alert : Option Y := none
  warehouse_id : String
  parameters : Option (List (String × Y)) := none

/-- SDK cluster spec as probed by `_convert_cluster_config` and
`_convert_job_clusters`. -/
structure NewCluster where
  spark_version : String
  node_type_id : String
  num_workers : Option Int := none
  autoscale : Option Y := none
  spark_conf : Option (List (String × Y)) := none
  spark_env_vars : Option (List (String × Y)) := none
  custom_tags : Option (List (String × Y)) := none
  init_scripts : Option (List Y) := none
  driver_node_type_id : Option String := none
  ssh_public_keys : Option (List String) := none
  cluster_log_conf : Option Y := none
  enable_elastic_disk : Option Bool := none
  disk_spec : Option Y := none
  cluster_mount_infos : Option (List Y) := none

/-- SDK PyPiLibrary. -/
structure PyPiLib where
  package : String
  repo : Option String := none

/-- SDK MavenLibrary. -/
structure MavenLib where
  coordinates : String
  repo : Option String := none
  exclusions : Option (List String) := none

/-- SDK RCranLibrary. -/
structure CranLib where
  package : String
  repo : Option String := none

/-- SDK Library as probed by `_convert_libraries`: at most one of the six
kind attributes is normally set, but the embedding allows any combination
exactly as duck typing does. -/
structure Library where
  jar : Option String := none
  egg : Option String := none
  whl : Option String := none
  pypi : Option PyPiLib := none
  maven : Option MavenLib := none
  cran : Option CranLib := none

/-- SDK Task as probed by `_convert_tasks`. -/
structure JobTask where
  task_key : String
  description : Option String := none
  depends_on : Option (List TaskDep) := none
  timeout_seconds : Option Int := none
  max_retries : Option Int := none
  min_retry_interval_millis : Option Int := none
  retry_on_timeout : Option Bool := none
  notebook_task : Option NotebookTask := none
  python_wheel_task : Option PythonWheelTask := none
  spark_jar_task : Option SparkJarTask := none
  spark_python_task : Option SparkPythonTask := none
  spark_submit_task : Option SparkSubmitTask := none
  pipeline_task : Option PipelineTask := none
  sql_task : Option SqlTask := none
  job_cluster_key : Option String := none
  existing_cluster_id : Option String := none
  new_cluster : Option NewCluster := none
  libraries : Option (List Library) := none

/-- SDK EmailNotifications. -/
structure EmailNotifications where
  on_start : Option (List String) := none
  on_success : Option (List String) := none
  on_failure : Option (List String) := none
  no_alert_for_skipped_runs : Option Bool := none

/-- A webhook reference carrying an id. -/
structure Webhook where
  id : String

/-- SDK WebhookNotifications. -/
structure WebhookNotifications where
  on_start : Option (List Webhook) := none
  on_success : Option (List Webhook) := none
  on_failure : Option (List Webhook) := none

/-- SDK CronSchedule. -/
structure Schedule where
  quartz_cron_expression : String
  timezone_id : String
  pause_status : Option String := none

/-- A job-level cluster definition as probed by `_convert_job_clusters`. -/
structure JobCluster where
  job_cluster_key : String
  new_cluster : NewCluster

/-- SDK JobSettings as probed by `_add_workflow_resources` and helpers. -/
structure JobSettings where
  tags : Option (List (String × Y)) := none
  timeout_seconds : Option Int := none
  max_concurrent_runs : Option Int := none
  email_notifications : Option EmailNotifications := none
  webhook_notifications : Option WebhookNotifications := none
  schedule : Option Schedule := none
  job_clusters : Option (List JobCluster) := none
  tasks : Option (List JobTask) := none

/-- The detailed workflow dictionary built by
`DatabricksClient.get_workflow_details` and consumed by the generator.
`none` models an absent dict key, so `workflow.get(k, d)` becomes
`(w.k).getD d`. -/
structure Workflow where
  job_id : Option Int := none
  name : Option String := none
  description : Option String := none
  settings : Option JobSettings := none

/-! ## Resource Translator (BundleGenerator in src/bundle_generator.py) -/

/-- `BundleGenerator._convert_email_notifications` (lines 229-240). -/
def convert_email_notifications (js : JobSettings) : Option Y :=
  match js.email_notifications with
  | none => none
  | some n => some (Y.m [
      ("on_start", Y.l ((n.on_start.getD []).map Y.s)),
      ("on_success", Y.l ((n.on_success.getD []).map Y.s)),
      ("on_failure", Y.l ((n.on_failure.getD []).map Y.s)),
      ("no_alert_for_skipped_runs", Y.b (n.no_alert_for_skipped_runs.getD false))])

/-- `BundleGenerator._convert_webhook_notifications` (lines 242-252). -/
def convert_webhook_notifications (js : JobSettings) : Option Y :=
  match js.webhook_notifications with
  | none => none
  | some n => some (Y.m [
      ("on_start", Y.l ((n.on_start.getD []).map fun wh => Y.m [("id", Y.s wh.id)])),
      ("on_success", Y.l ((n.on_success.getD []).map fun wh => Y.m [("id", Y.s wh.id)])),
      ("on_failure", Y.l ((n.on_failure.getD []).map fun wh => Y.m [("id", Y.s wh.id)]))])

/-- `BundleGenerator._convert_schedule` (lines 254-264). -/
def convert_schedule (js : JobSettings) : Option Y :=
  match js.schedule with
  | none => none
  | some sch => some (Y.m [
      ("quartz_cron_expression", Y.s sch.quartz_cron_expression),
      ("timezone_id", Y.s sch.timezone_id),
      ("pause_status", Y.s (sch.pause_status.getD "UNPAUSED"))])

/-- The `new_cluster` entries built inside `_convert_job_clusters`
(lines 275-297), after the clean-up that drops `None`, `[]` and empty
dict values. -/
def convert_new_cluster_entries (c : NewCluster) : List (String × Y) :=
  cleanEmpty [
    ("spark_version", Y.s c.spark_version),
    ("node_type_id", Y.s c.node_type_id),
    ("num_workers", Y.i (c.num_workers.getD 1)),
    ("autoscale", c.autoscale.getD Y.nil),
    ("spark_conf", Y.m (c.spark_conf.getD [])),
    ("spark_env_vars", Y.m (c.spark_env_vars.getD [])),
    ("custom_tags", Y.m (c.custom_tags.getD [])),
    ("init_scripts", Y.l (c.init_scripts.getD [])),
    ("driver_node_type_id", oY Y.s c.driver_node_type_id),
    ("ssh_public_keys", Y.l ((c.ssh_public_keys.getD []).map Y.s)),
    ("cluster_log_conf", c.cluster_log_conf.getD Y.nil),
    ("enable_elastic_disk", oY Y.b c.enable_elastic_disk),
    ("disk_spec", c.disk_spec.getD Y.nil),
    ("cluster_mount_infos", Y.l (c.cluster_mount_infos.getD []))]

/-- `BundleGenerator._convert_job_clusters` (lines 266-301): `None` when
the cluster list is absent or empty (both falsy). -/
def convert_job_clusters (js : JobSettings) : Option Y :=
  match js.job_clusters with
  | none => none
  | some [] => none
  | some cs => some (Y.l (cs.map fun jc => Y.m [
      ("job_cluster_key", Y.s jc.job_cluster_key),
      ("new_cluster", Y.m (convert_new_cluster_entries jc.new_cluster))]))

/-- `BundleGenerator._convert_cluster_config` (lines 388-400). -/
def convert_cluster_config (c : NewCluster) : Y :=
  Y.m (cleanEmpty [
    ("spark_version", Y.s c.spark_version),
    ("node_type_id", Y.s c.node_type_id),
    ("num_workers", Y.i (c.num_workers.getD 1)),
    ("autoscale", c.autoscale.getD Y.nil),
    ("spark_conf", Y.m (c.spark_conf.getD [])),
    ("spark_env_vars", Y.m (c.spark_env_vars.getD [])),
    ("custom_tags", Y.m (c.custom_tags.getD []))])

/-- One step of `BundleGenerator._convert_libraries` (lines 406-434): the
if/elif chain over the six library kinds, first truthy kind wins; the
result is the `lib_config` dict as a key-value list. -/
def convert_library (lib : Library) : List (String × Y) :=
  if strTruthy (lib.jar.getD "") then [("jar", Y.s (lib.jar.getD ""))]
  else if strTruthy (lib.egg.getD "") then [("egg", Y.s (lib.egg.getD ""))]
  else if strTruthy (lib.whl.getD "") then [("whl", Y.s (lib.whl.getD ""))]
  else
    match lib.pypi with
    | some p => [("pypi", Y.m (cleanNone [
        ("package", Y.s p.package),
        ("repo", oY Y.s p.repo)]))]
    | none =>
      match lib.maven with
      | some mv => [("maven", Y.m (cleanNoneOrEmptyList [
          ("coordinates", Y.s mv.coordinates),
          ("repo", oY Y.s mv.repo),
          ("exclusions", Y.l ((mv.exclusions.getD []).map Y.s))]))]
      | none =>
        match lib.cran with
        | some cr => [("cran", Y.m (cleanNone [
            ("package", Y.s cr.package),
            ("repo", oY Y.s cr.repo)]))]
        | none => []

/-- `BundleGenerator._convert_libraries` (lines 402-438): an empty
`lib_config` is not appended to the output list. -/
def convert_libraries (libs : List Library) : List Y :=
  libs.filterMap fun lib =>
    match convert_library lib with
    | [] => none
    | cfg => some (Y.m cfg)

/-- The common task fields assembled at lines 310-318 of
`_convert_tasks`, before the clean-up. -/
def taskBaseEntries (t : JobTask) : List (String × Y) :=
  [("task_key", Y.s t.task_key),
   ("description", Y.s (t.description.getD "")),
   ("depends_on", Y.l ((t.depends_on.getD []).map fun d => Y.m [("task_key", Y.s d.task_key)])),
   ("timeout_seconds", oY Y.i t.timeout_seconds),
   ("max_retries", oY Y.i t.max_retries),
   ("min_retry_interval_millis", oY Y.i t.min_retry_interval_millis),
   ("retry_on_timeout", oY Y.b t.retry_on_timeout)]

/-- The payload branch of `_convert_tasks` (lines 320-367): the if/elif
chain over the seven payload kinds, first present kind wins.  The result
is the single dict entry the chain assigns, or `[]` when no payload kind
is present. -/
def taskPayload (t : JobTask) : List (String × Y) :=
  match t.notebook_task with
  | some nb =>
    [("notebook_task", Y.m [
      ("notebook_path", Y.s nb.notebook_path),
      ("source", Y.s (nb.source.getD "WORKSPACE")),
      ("base_parameters", Y.m (nb.base_parameters.getD []))])]
  | none =>
    match t.python_wheel_task with
    | some pw =>
      [("python_wheel_task", Y.m [
        ("package_name", Y.s pw.package_name),
        ("entry_point", Y.s pw.entry_point),
        ("parameters", Y.l ((pw.parameters.getD []).map Y.s)),
        ("named_parameters", Y.m (pw.named_parameters.getD []))])]
    | none =>
      match t.spark_jar_task with
      | some sj =>
        [("spark_jar_task", Y.m [
          ("main_class_name", Y.s sj.main_class_name),
          ("parameters", Y.l ((sj.parameters.getD []).map Y.s))])]
      | none =>
        match t.spark_python_task with
        | some sp =>
          [("spark_python_task", Y.m [
            ("python_file", Y.s sp.python_file),
            ("parameters", Y.l ((sp.parameters.getD []).map Y.s)),
            ("source", Y.s (sp.source.getD "WORKSPACE"))])]
        | none =>
          match t.spark_submit_task with
          | some ss =>
            [("spark_submit_task", Y.m [
              ("parameters", Y.l (ss.parameters.map Y.s))])]
          | none =>
            match t.pipeline_task with
            | some pl =>
              [("pipeline_task", Y.m [
                ("pipeline_id", Y.s pl.pipeline_id),
                ("full_refresh", Y.b (pl.full_refresh.getD false))])]
            | none =>
              match t.sql_task with
              | some sq =>
                [("sql_task", Y.m [
                  ("query", sq.query.getD Y.nil),
                  ("dashboard", sq.dashboard.getD Y.nil),
                  ("alert", sq.alert.getD Y.nil),
                  ("warehouse_id", Y.s sq.warehouse_id),
                  ("parameters", Y.m (sq.parameters.getD []))])]
              | none => []

/-- The compute-binding branch of `_convert_tasks` (lines 369-375):
job-cluster-key reference first, then existing cluster id, then inline
new-cluster spec; a present but empty string is falsy and falls through. -/
def taskCompute (t : JobTask) : List (String × Y) :=
  if strTruthy (t.job_cluster_key.getD "") then
    [("job_cluster_key", Y.s (t.job_cluster_key.getD ""))]
  else if strTruthy (t.existing_cluster_id.getD "") then
    [("existing_cluster_id", Y.s (t.existing_cluster_id.getD ""))]
  else
    match t.new_cluster with
    | some c => [("new_cluster", convert_cluster_config c)]
    | none => []

/-- The library branch of `_convert_tasks` (lines 377-379): present only
for a present, non-empty library list. -/
def taskLibs (t : JobTask) : List (String × Y) :=
  match t.libraries with
  | none => []
  | some [] => []
  | some ls => [("libraries", Y.l (convert_libraries ls))]

/-- The entries of one converted task, after the clean-up at line 382
that drops `None`, `[]` and empty-dict values from the top level of the
task dict (nested dicts are not cleaned). -/
def taskEntries (t : JobTask) : List (String × Y) :=
  cleanEmpty (taskBaseEntries t ++ taskPayload t ++ taskCompute t ++ taskLibs t)

/-- One converted task of `_convert_tasks`. -/
def convert_task (t : JobTask) : Y := Y.m (taskEntries t)

/-- `BundleGenerator._convert_tasks` (lines 303-386): `None` when the
task list is absent or empty (both falsy). -/
def convert_tasks (js : JobSettings) : Option Y :=
  match js.tasks with
  | none => none
  | some [] => none
  | some ts => some (Y.l (ts.map convert_task))

/-- The job key derived at line 208:
`workflow.get("name", "unnamed_job").lower().replace(" ", "_").replace("-", "_")`.
The fallback applies only when the dict has no name key at all. -/
def jobKey (w : Workflow) : String :=
  replaceChar (replaceChar (strLower (w.name.getD "unnamed_job")) ' ' '_') '-' '_'

/-- The `job_resource` dict of `_add_workflow_resources` (lines 211-225)
after the comprehension that removes only `None` values: empty strings,
empty lists and empty dicts are kept. -/
def jobResourceEntries (w : Workflow) (js : JobSettings) : List (String × Y) :=
  cleanNone [
    ("name", Y.s (w.name.getD "Unnamed Job")),
    ("description", Y.s (w.description.getD "")),
    ("tags", Y.m (js.tags.getD [])),
    ("timeout_seconds", oY Y.i js.timeout_seconds),
    ("max_concurrent_runs", Y.i (js.max_concurrent_runs.getD 1)),
    ("email_notifications", (convert_email_notifications js).getD Y.nil),
    ("webhook_notifications", (convert_webhook_notifications js).getD Y.nil),
    ("schedule", (convert_schedule js).getD Y.nil),
    ("job_clusters", (convert_job_clusters js).getD Y.nil),
    ("tasks", (convert_tasks js).getD Y.nil)]

/-- The JobResource placed into the document by `_add_workflow_resources`. -/
def job_resource (w : Workflow) (js : JobSettings) : Y :=
  Y.m (jobResourceEntries w js)

/-- `BundleGenerator._add_workflow_resources` (lines 201-227) as a
function on the document: when the settings object is absent (falsy) it
logs a warning and leaves the document unchanged; otherwise it stores the
JobResource under `resources.jobs.<job_key>`.  The `none` result models
the KeyError the Python code would raise on a document without a
`resources.jobs` path (unreachable from the call sites). -/
def add_workflow_resources (bundle : Y) (w : Workflow) : Option Y :=
  match w.settings with
  | none => some bundle
  | some js =>
    match bundle with
    | .m top =>
      match dictGet top "resources" with
      | some (.m res) =>
        match dictGet res "jobs" with
        | some (.m jobs) =>
          some (.m (dictSet top "resources"
            (.m (dictSet res "jobs"
              (.m (dictSet jobs (jobKey w) (job_resource w js)))))))
        | _ => none
      | _ => none
    | _ => none

/-! ## Full-bundle structure and document emitter -/

/-- Update `doc[outer][inner] = v` on a dict-shaped document, modelling
the nested dict assignments at lines 175-197 of
`_create_bundle_structure` (the outer key always exists at the call
sites; a malformed document is returned unchanged where Python would
raise). -/
def setInner (doc : Y) (outer inner : String) (v : Y) : Y :=
  match doc with
  | .m top =>
    match dictGet top outer with
    | some (.m innerMap) => .m (dictSet top outer (.m (dictSet innerMap inner v)))
    | _ => doc
  | _ => doc

/-- The staging target added at lines 175-185 when the target
environment is dev. -/
def stagingTarget : Y :=
  Y.m [
    ("mode", Y.s "development"),
    ("workspace", Y.m [("host", Y.s "$\x7bvar.staging_workspace_host\x7d")]),
    ("variables", Y.m [
      ("staging_workspace_host", Y.m [
        ("description", Y.s "Staging workspace host URL")])])]

/-- The prod target added at lines 187-197 when the target environment
is dev. -/
def prodTarget : Y :=
  Y.m [
    ("mode", Y.s "production"),
    ("workspace", Y.m [("host", Y.s "$\x7bvar.prod_workspace_host\x7d")]),
    ("variables", Y.m [
      ("prod_workspace_host", Y.m [
        ("description", Y.s "Production workspace host URL")])])]

/-- `BundleGenerator._create_bundle_structure` (lines 122-199).
`current_user` models `self.db_client.current_user` (with the `or
"unknown_user"` fallback on a falsy value) and `workspace_url` the value
obtained from the workspace-info collaborator. -/
def create_bundle_structure (current_user : Option String) (workspace_url : String)
    (w : Workflow) (bundle_name target_environment : String) : Y :=
  let cu := if strTruthy (current_user.getD "") then current_user.getD "" else "unknown_user"
  let base := Y.m [
    ("bundle", Y.m [
      ("name", Y.s bundle_name),
      ("description", Y.s ("Asset bundle for workflow: " ++ (w.name.getD "Unknown"))),
      ("git", Y.m [
        ("origin_url", Y.s "$\x7bvar.git_origin_url\x7d"),
        ("branch", Y.s "$\x7bvar.git_branch\x7d")])]),
    ("variables", Y.m [
      ("git_origin_url", Y.m [
        ("description", Y.s "Git repository origin URL"),
        ("default", Y.s "https://github.com/your-org/your-repo.git")]),
      ("git_branch", Y.m [
        ("description", Y.s "Git branch to use"),
        ("default", Y.s "main")])]),
    ("targets", Y.m [
      (target_environment, Y.m [
        ("mode", Y.s (if target_environment == "dev" then "development" else "production")),
        ("default", Y.b (target_environment == "dev")),
        ("workspace", Y.m [
          ("host", Y.s "$\x7bvar.workspace_host\x7d"),
          ("current_user", Y.m [("user_name", Y.s cu)])]),
        ("variables", Y.m [
          ("workspace_host", Y.m [
            ("description", Y.s "Databricks workspace host URL"),
            ("default", Y.s workspace_url)])])])]),
    ("resources", Y.m [("jobs", Y.m [])])]
  if target_environment == "dev" then
    setInner (setInner base "targets" "staging" stagingTarget) "targets" "prod" prodTarget
  else base

/-- The initial resources-only document built at line 103 of
`generate_resources_only`. -/
def emptyResources : Y :=
  Y.m [("resources", Y.m [("jobs", Y.m [])])]

/-- The bundle name read for the full-mode header:
`bundle.get("bundle", \x7b\x7d).get("name", "Unknown")` (the generated
documents always hold a string there; any other shape falls back to the
default just as a missing key does). -/
def headerField (d : Y) (k1 k2 dflt : String) : String :=
  match yGet d k1 with
  | some inner =>
    match yGet inner k2 with
    | some (Y.s v) => v
    | _ => dflt
  | none => dflt

/-- The comment header of `_convert_to_yaml` (lines 453-458); `now`
models `datetime.now().isoformat()`. -/
def bundleHeader (now : String) (bundle : Y) : String :=
  "# Databricks Asset Bundle Configuration\n# Generated on: " ++ now ++
  "\n# Bundle: " ++ headerField bundle "bundle" "name" "Unknown" ++
  "\n# Description: " ++ headerField bundle "bundle" "description" "Auto-generated asset bundle" ++
  "\n\n"

/-- `BundleGenerator._convert_to_yaml` (lines 449-473): `dump` models
`yaml.dump`, the one fallible step inside the try block; on an encoding
failure the function returns the error-comment artifact instead of
raising. -/
def convert_to_yaml (dump : Y → Except String String) (now : String) (bundle : Y) : String :=
  match dump bundle with
  | .ok yamlContent => bundleHeader now bundle ++ yamlContent
  | .error e => "# Error generating YAML: " ++ e

/-- The comment header of `_convert_resources_to_yaml` (lines 478-488),
built from the summary workflow passed alongside the document. -/
def resourcesHeader (now : String) (w : Workflow) : String :=
  "# Databricks Asset Bundle Resources\n# Generated on: " ++ now ++
  "\n# Workflow: " ++ (w.name.getD "Unknown") ++
  "\n# Job ID: " ++ (match w.job_id with | some j => toString j | none => "N/A") ++
  "\n# Contains only the \x27resources:\x27 section for this workflow\n\n"

/-- `BundleGenerator._convert_resources_to_yaml` (lines 475-503). -/
def convert_resources_to_yaml (dump : Y → Except String String) (now : String)
    (resources : Y) (w : Workflow) : String :=
  match dump resources with
  | .ok yamlContent => resourcesHeader now w ++ yamlContent
  | .error e => "# Error generating YAML: " ++ e

/-! ## Generation entry points and batch orchestration -/

/-- The document built by `BundleGenerator.generate_resources_only`
(lines 78-120) before serialization: fetch the detailed workflow
(`fetch` models `db_client.get_workflow_details`; a missing `job_id` key
raises a KeyError that the surrounding try turns into `None`), then add
the workflow resources to the fresh resources-only skeleton.  The
dependency hook `_add_dependencies` is a no-op in the source. -/
def generate_resources_doc (fetch : Int → Option Workflow) (w : Workflow) : Option Y :=
  match w.job_id with
  | none => none
  | some jid =>
    match fetch jid with
    | none => none
    | some dw => add_workflow_resources emptyResources dw

/-- `BundleGenerator.generate_resources_only` (lines 78-120): the
serialized artifact, or `None` on failure. -/
def generate_resources_only (fetch : Int → Option Workflow)
    (dump : Y → Except String String) (now : String) (w : Workflow) : Option String :=
  (generate_resources_doc fetch w).map fun res =>
    convert_resources_to_yaml dump now res w

/-- The document built by `BundleGenerator.generate_bundle`
(lines 26-76) before serialization, in full-bundle mode. -/
def generate_bundle_doc (fetch : Int → Option Workflow)
    (current_user : Option String) (workspace_url : String)
    (w : Workflow) (bundle_name target_environment : String) : Option Y :=
  match w.job_id with
  | none => none
  | some jid =>
    match fetch jid with
    | none => none
    | some dw =>
      add_workflow_resources
        (create_bundle_structure current_user workspace_url dw bundle_name target_environment) dw

/-- `BundleGenerator.generate_bundle` (lines 26-76): the serialized
artifact, or `None` on failure. -/
def generate_bundle (fetch : Int → Option Workflow)
    (dump : Y → Except String String) (now : String)
    (current_user : Option String) (workspace_url : String)
    (w : Workflow) (bundle_name target_environment : String) : Option String :=
  (generate_bundle_doc fetch current_user workspace_url w bundle_name target_environment).map
    fun bdl => convert_to_yaml dump now bdl

/-- The success/failure accumulation of `DABOpsApp.generate_bundles`
(app.py lines 390-421): each workflow is translated in order; a truthy
artifact is collected as a success, a `None` result or a raised
exception (already absorbed inside `generate_resources_only`) records
the workflow name as a failure, and the loop always continues to the
next workflow.  UI side effects (progress bar, session state) are
omitted. -/
def generate_bundles_outcome (fetch : Int → Option Workflow)
    (dump : Y → Except String String) (now : String)
    (workflows : List Workflow) : List String × List String :=
  workflows.foldl (fun acc w =>
    match generate_resources_only fetch dump now w with
    | some content =>
      if content ≠ "" then (acc.1 ++ [content], acc.2)
      else (acc.1, acc.2 ++ [w.name.getD "Unknown"])
    | none => (acc.1, acc.2 ++ [w.name.getD "Unknown"])) ([], [])

/-! ## Unique destination naming (DABOpsApp._get_unique_workspace_path) -/

/-- The outcome of the injected existence check
`self.db_client.client.workspace.get_status(initial_path)`: the call
succeeds when the file is present, and raises both when the file is
absent (the service reports not-found by raising) and when the check
itself fails; the bare `except` at app.py line 582 treats both raises
alike. -/
inductive ExistCheck where
  | present : ExistCheck
  | absent : ExistCheck
  | failure : ExistCheck

/-- Split a character list at its last dot, modelling
`base_filename.rsplit(".", 1)`: `some (before, after)` when a dot is
present, `none` otherwise. -/
def lastSplit : List Char → Option (List Char × List Char)
  | [] => none
  | c :: cs =>
    match lastSplit cs with
    | some p => some (c :: p.1, p.2)
    | none => if c = '.' then some ([], cs) else none

/-- `base_filename.rsplit(".", 1)[0]`: the part before the last dot, or
the whole name when there is no dot. -/
def rsplitName (base : String) : String :=
  match lastSplit base.data with
  | some p => String.mk p.1
  | none => base

/-- `base_filename.rsplit(".", 1)[1] if "." in base_filename else ""`. -/
def rsplitExt (base : String) : String :=
  match lastSplit base.data with
  | some p => String.mk p.2
  | none => ""

/-- `DABOpsApp._get_unique_workspace_path` (app.py lines 567-587): when
the existence check succeeds the timestamp `ts` (modelling
`datetime.now().strftime("%Y%m%d_%H%M%S")`) is inserted before the file
extension; when the check raises — because the file is absent or because
the check itself failed — the original path is returned unchanged. -/
def get_unique_workspace_path (check : ExistCheck) (ts : String)
    (initial_path base_filename folder_path : String) : String :=
  match check with
  | .present =>
    folder_path ++ "/" ++ rsplitName base_filename ++ "_" ++ ts ++ "." ++ rsplitExt base_filename
  | .absent => initial_path
  | .failure => initial_path

/-! ## Concrete scenario inputs used by the claims -/

/-- The scenario task: task_key t1 with a notebook payload at /x. -/
def scenarioTask : JobTask :=
  { task_key := "t1", notebook_task := some { notebook_path := "/x" } }

/-- The scenario settings: a single task and no other settings fields. -/
def scenarioSettings : JobSettings :=
  { tasks := some [scenarioTask] }

/-- The scenario workflow: job_id 42, name Nightly Sync, the scenario
settings. -/
def scenarioWorkflow : Workflow :=
  { job_id := some 42, name := some "Nightly Sync", settings := some scenarioSettings }

/-- A detail fetch that returns the scenario workflow for every job id. -/
def scenFetch : Int → Option Workflow := fun _ => some scenarioWorkflow

/-- The JobResource the translation actually places under
resources.jobs.nightly_sync for the scenario workflow. -/
def scenarioJob : Y :=
  (((generate_resources_doc scenFetch scenarioWorkflow).bind fun d =>
    (yGet d "resources").bind fun r =>
      (yGet r "jobs").bind fun j =>
        yGet j "nightly_sync")).getD Y.nil

/-- The ordered key lists of the converted tasks found under a
JobResource (used to compare document shapes decidably). -/
def taskKeyShapes (jr : Y) : List (List String) :=
  match yGet jr "tasks" with
  | some (Y.l ts) => ts.map topKeys
  | _ => []

/-- The ordered key list of the notebook payload of the first converted
task of a JobResource. -/
def firstTaskNotebookKeys (jr : Y) : List String :=
  match yGet jr "tasks" with
  | some (Y.l (t :: _)) => topKeys ((yGet t "notebook_task").getD Y.nil)
  | _ => []

/-- C1 counterexample: for the scenario workflow in resources-only mode
the JobResource under resources.jobs.nightly_sync carries the keys name,
description, tags and max_concurrent_runs besides tasks, and its single
converted task carries a description key and a base_parameters sub-key
that the claim excludes — so the tasks value is not exactly the claimed
list and the JobResource does not contain only the tasks key (two equal
dict values would have equal ordered key lists). -/
theorem c1_scenario_counterexample :
    topKeys scenarioJob ≠ ["tasks"]
    ∧ taskKeyShapes scenarioJob ≠ [["task_key", "notebook_task"]]
    ∧ firstTaskNotebookKeys scenarioJob ≠ ["notebook_path", "source"] := by
  refine ⟨?_, ?_, ?_⟩ <;> decide

/-- C1 amended: for the scenario workflow in resources-only mode the
produced document is exactly resources.jobs.nightly_sync with JobResource
keys name, description (empty string), tags (empty mapping),
max_concurrent_runs 1 and tasks, where the single converted task is
\x7btask_key: t1, description: "", notebook_task: \x7bnotebook_path: /x,
source: WORKSPACE, base_parameters: \x7d\x7d\x7d. -/
theorem c1_scenario_translation :
    generate_resources_doc scenFetch scenarioWorkflow = some (Y.m [
      ("resources", Y.m [
        ("jobs", Y.m [
          ("nightly_sync", Y.m [
            ("name", Y.s "Nightly Sync"),
            ("description", Y.s ""),
            ("tags", Y.m []),
            ("max_concurrent_runs", Y.i 1),
            ("tasks", Y.l [Y.m [
              ("task_key", Y.s "t1"),
              ("description", Y.s ""),
              ("notebook_task", Y.m [
                ("notebook_path", Y.s "/x"),
                ("source", Y.s "WORKSPACE"),
                ("base_parameters", Y.m [])])]])])])])]) := rfl

/-! ## C2: field omission at the JobResource and task level -/

/-- C2 counterexample: in the scenario document the JobResource keeps the
key tags with an empty-mapping value and the key description with an
empty-string value — the comprehension at line 225 removes only `None`
values, so empty collections are emitted. -/
theorem c2_empty_values_counterexample :
    yGet (job_resource scenarioWorkflow scenarioSettings) "tags" = some (Y.m [])
    ∧ yGet (job_resource scenarioWorkflow scenarioSettings) "description" = some (Y.s "") :=
  ⟨rfl, rfl⟩

/-- C2 amended: only `None`-valued fields are omitted from the
JobResource (empty lists, empty mappings and empty strings are kept
there), while each converted task omits `None`, empty-list and
empty-mapping values from the top level of the task dict. -/
theorem c2_field_omission :
    (∀ (w : Workflow) (js : JobSettings) (kv : String × Y),
      kv ∈ jobResourceEntries w js → isNil kv.2 = false)
    ∧ (∀ (t : JobTask) (kv : String × Y),
      kv ∈ taskEntries t → pyEmptyOrNone kv.2 = false) := by
  constructor
  · intro w js kv hkv
    simp only [jobResourceEntries, cleanNone, List.mem_filter, Bool.not_eq_true'] at hkv
    exact hkv.2
  · intro t kv hkv
    simp only [taskEntries, cleanEmpty, List.mem_filter, Bool.not_eq_true'] at hkv
    exact hkv.2

/-- Witness for `c2_field_omission` at the scenario inputs. -/
theorem c2_field_omission_witness :
    (("name", Y.s "Nightly Sync") ∈ jobResourceEntries scenarioWorkflow scenarioSettings
      ∧ isNil (Y.s "Nightly Sync") = false)
    ∧ (("task_key", Y.s "t1") ∈ taskEntries scenarioTask
      ∧ pyEmptyOrNone (Y.s "t1") = false) :=
  ⟨⟨List.Mem.head _,
    c2_field_omission.1 scenarioWorkflow scenarioSettings _ (List.Mem.head _)⟩,
   ⟨List.Mem.head _,
    c2_field_omission.2 scenarioTask _ (List.Mem.head _)⟩⟩

/-! ## C3: behaviour on a workflow whose settings object is absent -/

/-- A string with a non-empty left component never concatenates to the
empty string. -/
theorem append_ne_empty_left (a c : String) (h : 0 < a.length) : a ++ c ≠ "" := by
  intro he
  have hl := congrArg String.length he
  rw [String.length_append] at hl
  have h0 : ("" : String).length = 0 := rfl
  rw [h0] at hl
  omega

/-- The resources-only comment header is never empty. -/
theorem resourcesHeader_length_pos (now : String) (w : Workflow) :
    0 < (resourcesHeader now w).length := by
  simp only [resourcesHeader, String.length_append]
  have h : 0 < ("# Databricks Asset Bundle Resources\n# Generated on: " : String).length := by
    decide
  omega

/-- The resources-only serializer always returns a non-empty (truthy)
artifact: both the success branch and the error-comment branch start
with a non-empty literal. -/
theorem convert_resources_to_yaml_ne_empty (dump : Y → Except String String)
    (now : String) (res : Y) (w : Workflow) :
    convert_resources_to_yaml dump now res w ≠ "" := by
  unfold convert_resources_to_yaml
  cases h : dump res with
  | ok y =>
    simp only [h]
    exact append_ne_empty_left _ _ (resourcesHeader_length_pos now w)
  | error e =>
    simp only [h]
    exact append_ne_empty_left _ _ (by decide)

/-- A workflow whose detail fetch yields no settings: job_id 7, name
No Settings, settings absent. -/
def c3Workflow : Workflow := { job_id := some 7, name := some "No Settings" }

/-- A detail fetch that returns the settings-less workflow. -/
def c3Fetch : Int → Option Workflow := fun _ => some c3Workflow

/-- A yaml.dump stand-in that always succeeds. -/
def okDump : Y → Except String String := fun _ => Except.ok "jobs: \x7b\x7d\n"

/-- C3 counterexample: for a workflow whose settings object is absent,
translation raises nothing — the source has no MissingSettingsError —
and returns a serialized artifact of a document with an empty
resources.jobs mapping; in a batch the workflow is recorded as a
success, not as a failure. -/
theorem c3_missing_settings_counterexample :
    (generate_resources_only c3Fetch okDump "2026-01-01T00:00:00" c3Workflow).isSome = true
    ∧ generate_resources_doc c3Fetch c3Workflow = some emptyResources
    ∧ (generate_bundles_outcome c3Fetch okDump "2026-01-01T00:00:00" [c3Workflow]).2 = []
    ∧ (generate_bundles_outcome c3Fetch okDump "2026-01-01T00:00:00" [c3Workflow]).1.length = 1 :=
  ⟨rfl, rfl, rfl, rfl⟩

/-- C3 amended: when the fetched detail carries no settings object,
`_add_workflow_resources` logs a warning and leaves the document
unchanged, so translation returns the serialized empty-jobs document
rather than failing, and a batch containing that workflow records it as
a success and continues. -/
theorem c3_missing_settings_behaviour (fetch : Int → Option Workflow)
    (dump : Y → Except String String) (now : String)
    (w dw : Workflow) (jid : Int)
    (h1 : w.job_id = some jid) (h2 : fetch jid = some dw) (h3 : dw.settings = none) :
    generate_resources_doc fetch w = some emptyResources
    ∧ generate_resources_only fetch dump now w
        = some (convert_resources_to_yaml dump now emptyResources w)
    ∧ generate_bundles_outcome fetch dump now [w]
        = ([convert_resources_to_yaml dump now emptyResources w], []) := by
  have hdoc : generate_resources_doc fetch w = some emptyResources := by
    simp only [generate_resources_doc, add_workflow_resources, h1, h2, h3]
  have honly : generate_resources_only fetch dump now w
      = some (convert_resources_to_yaml dump now emptyResources w) := by
    unfold generate_resources_only
    rw [hdoc]
    rfl
  refine ⟨hdoc, honly, ?_⟩
  unfold generate_bundles_outcome
  simp only [List.foldl_cons, List.foldl_nil]
  simp [honly, convert_resources_to_yaml_ne_empty dump now emptyResources w]

/-- Witness for `c3_missing_settings_behaviour` at the concrete
settings-less workflow. -/
theorem c3_missing_settings_behaviour_witness :
    c3Workflow.job_id = some 7
    ∧ (generate_resources_doc c3Fetch c3Workflow = some emptyResources
      ∧ generate_resources_only c3Fetch okDump "T" c3Workflow
          = some (convert_resources_to_yaml okDump "T" emptyResources c3Workflow)
      ∧ generate_bundles_outcome c3Fetch okDump "T" [c3Workflow]
          = ([convert_resources_to_yaml okDump "T" emptyResources c3Workflow], [])) :=
  ⟨rfl, c3_missing_settings_behaviour c3Fetch okDump "T" c3Workflow c3Workflow 7 rfl rfl rfl⟩

/-! ## C4: job-key derivation -/

/-- A workflow whose name key is present but empty. -/
def c4EmptyName : Workflow :=
  { job_id := some 1, name := some "", settings := some {} }

/-- C4 counterexample: an empty (but present) workflow name yields the
empty job key, not "unnamed_job" — the fallback of `dict.get` applies
only when the name key is missing — so the JobResource is placed under
the empty key and the job key is not always non-empty. -/
theorem c4_empty_name_counterexample :
    jobKey c4EmptyName = ""
    ∧ add_workflow_resources emptyResources c4EmptyName
        = some (Y.m [("resources", Y.m [("jobs",
            Y.m [("", job_resource c4EmptyName {})])])]) :=
  ⟨rfl, rfl⟩

/-- C4 amended: when the name key is present the job key is the name
lowercased with spaces and hyphens replaced by underscores (so an empty
name yields an empty job key); the fallback "unnamed_job" applies only
when the name key is absent; and the JobResource is placed under that
job key. -/
theorem c4_job_key_derivation (w : Workflow) (js : JobSettings)
    (hs : w.settings = some js) :
    (∀ n, w.name = some n →
      jobKey w = replaceChar (replaceChar (strLower n) ' ' '_') '-' '_')
    ∧ (w.name = none → jobKey w = "unnamed_job")
    ∧ add_workflow_resources emptyResources w
        = some (Y.m [("resources", Y.m [("jobs",
            Y.m [(jobKey w, job_resource w js)])])]) := by
  refine ⟨?_, ?_, ?_⟩
  · intro n hn
    unfold jobKey
    rw [hn]
    rfl
  · intro hn
    unfold jobKey
    rw [hn]
    rfl
  · unfold add_workflow_resources
    rw [hs]
    rfl

/-- The claim example workflow named My ETL-Job. -/
def c4Etl : Workflow :=
  { job_id := some 2, name := some "My ETL-Job", settings := some {} }

/-- Witness for `c4_job_key_derivation`: the name My ETL-Job yields the
job key my_etl_job. -/
theorem c4_job_key_derivation_witness :
    jobKey c4Etl = replaceChar (replaceChar (strLower "My ETL-Job") ' ' '_') '-' '_'
    ∧ jobKey c4Etl = "my_etl_job" :=
  ⟨(c4_job_key_derivation c4Etl {} rfl).1 "My ETL-Job" rfl, by decide⟩

/-! ## C5: exactly one payload key per converted task -/

/-- The seven payload keys a converted task may carry, in the fixed
precedence order of the if/elif chain at lines 321-367. -/
def payloadNames : List String :=
  ["notebook_task", "python_wheel_task", "spark_jar_task", "spark_python_task",
   "spark_submit_task", "pipeline_task", "sql_task"]

/-- How many payload kinds are present on a task. -/
def payloadCount (t : JobTask) : Nat :=
  (if t.notebook_task.isSome then 1 else 0) +
  (if t.python_wheel_task.isSome then 1 else 0) +
  (if t.spark_jar_task.isSome then 1 else 0) +
  (if t.spark_python_task.isSome then 1 else 0) +
  (if t.spark_submit_task.isSome then 1 else 0) +
  (if t.pipeline_task.isSome then 1 else 0) +
  (if t.sql_task.isSome then 1 else 0)

/-- The first payload kind present on a task in the fixed precedence
order of the claim (notebook, python-wheel, spark-jar, spark-python,
spark-submit, pipeline, sql). -/
def firstPayloadKind (t : JobTask) : Option String :=
  if t.notebook_task.isSome then some "notebook_task"
  else if t.python_wheel_task.isSome then some "python_wheel_task"
  else if t.spark_jar_task.isSome then some "spark_jar_task"
  else if t.spark_python_task.isSome then some "spark_python_task"
  else if t.spark_submit_task.isSome then some "spark_submit_task"
  else if t.pipeline_task.isSome then some "pipeline_task"
  else if t.sql_task.isSome then some "sql_task"
  else none

/-- The if/elif payload chain emits either nothing (no payload kind
present) or a single non-empty dict entry keyed by the first present
kind. -/
theorem taskPayload_shape (t : JobTask) :
    (taskPayload t = [] ∧ firstPayloadKind t = none ∧ payloadCount t = 0)
    ∨ (∃ k kvs, taskPayload t = [(k, Y.m kvs)] ∧ kvs ≠ []
        ∧ firstPayloadKind t = some k ∧ payloadNames.contains k = true) := by
  unfold taskPayload firstPayloadKind payloadCount
  cases hnb : t.notebook_task with
  | some nb => exact Or.inr ⟨"notebook_task", _, rfl, by simp, by simp, by decide⟩
  | none =>
  cases hpw : t.python_wheel_task with
  | some pw => exact Or.inr ⟨"python_wheel_task", _, rfl, by simp, by simp, by decide⟩
  | none =>
  cases hsj : t.spark_jar_task with
  | some sj => exact Or.inr ⟨"spark_jar_task", _, rfl, by simp, by simp, by decide⟩
  | none =>
  cases hsp : t.spark_python_task with
  | some sp => exact Or.inr ⟨"spark_python_task", _, rfl, by simp, by simp, by decide⟩
  | none =>
  cases hss : t.spark_submit_task with
  | some ss => exact Or.inr ⟨"spark_submit_task", _, rfl, by simp, by simp, by decide⟩
  | none =>
  cases hpl : t.pipeline_task with
  | some pl => exact Or.inr ⟨"pipeline_task", _, rfl, by simp, by simp, by decide⟩
  | none =>
  cases hsq : t.sql_task with
  | some sq => exact Or.inr ⟨"sql_task", _, rfl, by simp, by simp, by decide⟩
  | none => exact Or.inl ⟨rfl, by simp, by simp⟩

/-- No common task field uses a payload key. -/
theorem taskBase_no_payload_key (t : JobTask) :
    ∀ kv ∈ taskBaseEntries t, payloadNames.contains kv.1 = false := by
  intro kv hkv
  simp only [taskBaseEntries, List.mem_cons, List.not_mem_nil, or_false] at hkv
  rcases hkv with h | h | h | h | h | h | h <;> subst h <;> rfl

/-- No compute-binding field uses a payload key. -/
theorem taskCompute_no_payload_key (t : JobTask) :
    ∀ kv ∈ taskCompute t, payloadNames.contains kv.1 = false := by
  intro kv hkv
  unfold taskCompute at hkv
  split_ifs at hkv
  · simp at hkv; subst hkv; rfl
  · simp at hkv; subst hkv; rfl
  · cases hnc : t.new_cluster with
    | some c => rw [hnc] at hkv; simp at hkv; subst hkv; rfl
    | none => rw [hnc] at hkv; simp at hkv

/-- The library field does not use a payload key. -/
theorem taskLibs_no_payload_key (t : JobTask) :
    ∀ kv ∈ taskLibs t, payloadNames.contains kv.1 = false := by
  intro kv hkv
  unfold taskLibs at hkv
  cases hls : t.libraries with
  | none => rw [hls] at hkv; simp at hkv
  | some ls =>
    cases ls with
    | nil => rw [hls] at hkv; simp at hkv
    | cons a as => rw [hls] at hkv; simp at hkv; subst hkv; rfl

/-- The payload-key census of a chunk with no payload keys is empty,
whatever the clean-up keeps. -/
theorem no_key_filter (X : List (String × Y)) (p : String × Y → Bool)
    (hX : ∀ kv ∈ X, payloadNames.contains kv.1 = false) :
    ((X.filter p).map (·.1)).filter (fun s => payloadNames.contains s) = [] := by
  rw [List.filter_eq_nil_iff]
  intro s hs
  obtain ⟨kv, hkvmem, rfl⟩ := List.mem_map.mp hs
  have hmem := (List.mem_filter.mp hkvmem).1
  simpa using hX kv hmem

/-- C5: a task carrying more than one payload kind converts to a task
dict with exactly one payload key — the first present kind in the fixed
precedence order — never two. -/
theorem c5_exactly_one_payload (t : JobTask) (h : 2 ≤ payloadCount t) :
    ∃ k, firstPayloadKind t = some k
      ∧ ((taskEntries t).map (·.1)).filter (fun s => payloadNames.contains s) = [k] := by
  rcases taskPayload_shape t with ⟨hp, hf, hc⟩ | ⟨k, kvs, hp, hne, hf, hmem⟩
  · omega
  · refine ⟨k, hf, ?_⟩
    have hA := no_key_filter (taskBaseEntries t)
      (fun kv => !(pyEmptyOrNone kv.2)) (taskBase_no_payload_key t)
    have hC := no_key_filter (taskCompute t)
      (fun kv => !(pyEmptyOrNone kv.2)) (taskCompute_no_payload_key t)
    have hL := no_key_filter (taskLibs t)
      (fun kv => !(pyEmptyOrNone kv.2)) (taskLibs_no_payload_key t)
    unfold taskEntries cleanEmpty
    rw [hp]
    simp only [List.filter_append, List.map_append]
    rw [hA, hC, hL]
    cases kvs with
    | nil => exact absurd rfl hne
    | cons e es => simpa [pyEmptyOrNone] using hmem

/-- A malformed task carrying both a notebook and a python-wheel
payload. -/
def c5Task : JobTask :=
  { task_key := "both",
    notebook_task := some { notebook_path := "/n" },
    python_wheel_task := some { package_name := "p", entry_point := "e" } }

/-- Witness for `c5_exactly_one_payload`: the notebook/wheel task emits
only the notebook_task payload key. -/
theorem c5_exactly_one_payload_witness :
    2 ≤ payloadCount c5Task
    ∧ ∃ k, firstPayloadKind c5Task = some k
      ∧ ((taskEntries c5Task).map (·.1)).filter (fun s => payloadNames.contains s) = [k] :=
  ⟨by decide, c5_exactly_one_payload c5Task (by decide)⟩

/-! ## C6: unique destination naming -/

/-- `lastSplit` splits off exactly one dot: the lengths of the two parts
account for the whole list minus the dot. -/
theorem lastSplit_length (cs : List Char) (a c : List Char)
    (h : lastSplit cs = some (a, c)) : cs.length = a.length + 1 + c.length := by
  induction cs generalizing a c with
  | nil => simp [lastSplit] at h
  | cons x xs ih =>
    unfold lastSplit at h
    cases hx : lastSplit xs with
    | some p =>
      rw [hx] at h
      simp only [Option.some.injEq, Prod.mk.injEq] at h
      obtain ⟨h1, h2⟩ := h
      subst h1
      subst h2
      have := ih p.1 p.2 (by rw [hx])
      simp only [List.length_cons]
      omega
    | none =>
      rw [hx] at h
      split_ifs at h
      simp only [Option.some.injEq, Prod.mk.injEq] at h
      obtain ⟨h1, h2⟩ := h
      subst h1
      subst h2
      simp only [List.length_cons, List.length_nil]
      omega

/-- The two parts of the rsplit never exceed the original name by more
than the removed dot. -/
theorem rsplit_length_le (base : String) :
    base.length ≤ (rsplitName base).length + (rsplitExt base).length + 1 := by
  unfold rsplitName rsplitExt
  cases h : lastSplit base.data with
  | none => simp
  | some p =>
    have hlen := lastSplit_length base.data p.1 p.2 (by rw [h])
    simp only [String.length]
    omega

/-- C6: on the call-site path `folder/base`, the unique-naming function
returns `folder/<name>_<ts>.<ext>` — distinct from the original path —
when the existence check finds the file, and returns the original path
unchanged both when the check reports the file absent and when the check
itself raises. -/
theorem c6_unique_destination_naming (ts base folder : String) :
    (get_unique_workspace_path .present ts (folder ++ "/" ++ base) base folder
        = folder ++ "/" ++ rsplitName base ++ "_" ++ ts ++ "." ++ rsplitExt base
      ∧ get_unique_workspace_path .present ts (folder ++ "/" ++ base) base folder
        ≠ folder ++ "/" ++ base)
    ∧ get_unique_workspace_path .absent ts (folder ++ "/" ++ base) base folder
        = folder ++ "/" ++ base
    ∧ get_unique_workspace_path .failure ts (folder ++ "/" ++ base) base folder
        = folder ++ "/" ++ base := by
  refine ⟨⟨rfl, ?_⟩, rfl, rfl⟩
  intro he
  have hl := congrArg String.length he
  simp only [get_unique_workspace_path, String.length_append] at hl
  simp only [show ("/" : String).length = 1 from rfl,
    show ("_" : String).length = 1 from rfl,
    show ("." : String).length = 1 from rfl] at hl
  have hsl := rsplit_length_le base
  omega

/-! ## C7: serialization never raises -/

/-- C7: both serializers are total functions of the dump outcome: a
successful dump yields the comment header followed by the body, and an
encoding failure yields exactly the single error comment line (starting
with the comment character, containing no newline when the message has
none) instead of an exception, in full-bundle and resources-only modes
alike. -/
theorem c7_serialization_never_raises (now : String) (bundle res : Y) (w : Workflow)
    (e : String) (hnl : '\n' ∉ e.data) :
    (convert_to_yaml (fun _ => Except.error e) now bundle
        = "# Error generating YAML: " ++ e
      ∧ convert_resources_to_yaml (fun _ => Except.error e) now res w
        = "# Error generating YAML: " ++ e
      ∧ ("# Error generating YAML: " ++ e).data.head? = some '#'
      ∧ '\n' ∉ ("# Error generating YAML: " ++ e).data)
    ∧ (∀ (dump : Y → Except String String) (y : String), dump bundle = Except.ok y →
        convert_to_yaml dump now bundle = bundleHeader now bundle ++ y)
    ∧ (∀ (dump : Y → Except String String) (y : String), dump res = Except.ok y →
        convert_resources_to_yaml dump now res w = resourcesHeader now w ++ y) := by
  refine ⟨⟨rfl, rfl, rfl, ?_⟩, ?_, ?_⟩
  · intro hm
    rw [show ("# Error generating YAML: " ++ e).data
        = ("# Error generating YAML: " : String).data ++ e.data from rfl] at hm
    rcases List.mem_append.mp hm with h | h
    · exact absurd h (by decide)
    · exact hnl h
  · intro dump y h
    unfold convert_to_yaml
    rw [h]
  · intro dump y h
    unfold convert_resources_to_yaml
    rw [h]

/-- Witness for `c7_serialization_never_raises` at a concrete message
and dump. -/
theorem c7_serialization_never_raises_witness :
    ('\n' ∉ ("boom" : String).data)
    ∧ ((convert_to_yaml (fun _ => Except.error "boom") "T" emptyResources
          = "# Error generating YAML: " ++ "boom"
        ∧ convert_resources_to_yaml (fun _ => Except.error "boom") "T" emptyResources c3Workflow
          = "# Error generating YAML: " ++ "boom"
        ∧ ("# Error generating YAML: " ++ "boom").data.head? = some '#'
        ∧ '\n' ∉ ("# Error generating YAML: " ++ "boom").data)
      ∧ (∀ (dump : Y → Except String String) (y : String),
          dump emptyResources = Except.ok y →
          convert_to_yaml dump "T" emptyResources = bundleHeader "T" emptyResources ++ y)
      ∧ (∀ (dump : Y → Except String String) (y : String),
          dump emptyResources = Except.ok y →
          convert_resources_to_yaml dump "T" emptyResources c3Workflow
            = resourcesHeader "T" c3Workflow ++ y)) :=
  ⟨by decide,
   c7_serialization_never_raises "T" emptyResources emptyResources c3Workflow "boom" (by decide)⟩

/-! ## C8: batch resilience -/

/-- Adding workflow resources to the fresh resources-only skeleton never
fails: either the settings are absent (document unchanged) or the
`resources.jobs` path exists in the skeleton. -/
theorem add_workflow_resources_emptyResources_isSome (dw : Workflow) :
    ∃ d, add_workflow_resources emptyResources dw = some d := by
  unfold add_workflow_resources
  cases hs : dw.settings with
  | none => exact ⟨_, rfl⟩
  | some js => exact ⟨_, rfl⟩

/-- A workflow whose detail fetch succeeds always yields a non-empty
(truthy) artifact from `generate_resources_only`. -/
theorem generate_resources_only_success (fetch : Int → Option Workflow)
    (dump : Y → Except String String) (now : String) (w dw : Workflow) (jid : Int)
    (h1 : w.job_id = some jid) (h2 : fetch jid = some dw) :
    ∃ c, generate_resources_only fetch dump now w = some c ∧ c ≠ "" := by
  obtain ⟨d, hd⟩ := add_workflow_resources_emptyResources_isSome dw
  refine ⟨convert_resources_to_yaml dump now d w, ?_,
    convert_resources_to_yaml_ne_empty dump now d w⟩
  simp only [generate_resources_only, generate_resources_doc, h1, h2, hd, Option.map_some']

/-- A workflow whose detail fetch returns null yields no artifact. -/
theorem generate_resources_only_fetch_none (fetch : Int → Option Workflow)
    (dump : Y → Except String String) (now : String) (w : Workflow) (jid : Int)
    (h1 : w.job_id = some jid) (h2 : fetch jid = none) :
    generate_resources_only fetch dump now w = none := by
  simp only [generate_resources_only, generate_resources_doc, h1, h2, Option.map_none']

/-- C8: in a batch of three workflows where the second detail fetch
returns null and the other two succeed, the loop records exactly two
successes and one failure (the second workflow), and processing
continues past the failure to the third workflow. -/
theorem c8_batch_resilience (fetch : Int → Option Workflow)
    (dump : Y → Except String String) (now : String)
    (w1 w2 w3 d1 d3 : Workflow) (j1 j2 j3 : Int)
    (h11 : w1.job_id = some j1) (h12 : fetch j1 = some d1)
    (h21 : w2.job_id = some j2) (h22 : fetch j2 = none)
    (h31 : w3.job_id = some j3) (h32 : fetch j3 = some d3) :
    (generate_bundles_outcome fetch dump now [w1, w2, w3]).1.length = 2
    ∧ (generate_bundles_outcome fetch dump now [w1, w2, w3]).2
        = [w2.name.getD "Unknown"] := by
  obtain ⟨c1, hc1, hne1⟩ := generate_resources_only_success fetch dump now w1 d1 j1 h11 h12
  obtain ⟨c3, hc3, hne3⟩ := generate_resources_only_success fetch dump now w3 d3 j3 h31 h32
  have h2fail := generate_resources_only_fetch_none fetch dump now w2 j2 h21 h22
  unfold generate_bundles_outcome
  simp only [List.foldl_cons, List.foldl_nil, hc1, hc3, h2fail]
  rw [if_pos hne1, if_pos hne3]
  simp

/-- The three concrete workflows of the batch-resilience witness. -/
def c8w1 : Workflow := { job_id := some 1, name := some "A", settings := some {} }

/-- The middle workflow whose detail fetch returns null. -/
def c8w2 : Workflow := { job_id := some 2, name := some "B" }

/-- The third workflow of the batch-resilience witness. -/
def c8w3 : Workflow := { job_id := some 3, name := some "C", settings := some {} }

/-- A detail fetch that succeeds for job ids 1 and 3 and returns null
for every other id. -/
def c8Fetch : Int → Option Workflow :=
  fun j => if j = 1 then some c8w1 else if j = 3 then some c8w3 else none

/-- Witness for `c8_batch_resilience` at the concrete three-workflow
batch. -/
theorem c8_batch_resilience_witness :
    c8w1.job_id = some 1 ∧ c8Fetch 2 = none
    ∧ ((generate_bundles_outcome c8Fetch okDump "T" [c8w1, c8w2, c8w3]).1.length = 2
      ∧ (generate_bundles_outcome c8Fetch okDump "T" [c8w1, c8w2, c8w3]).2
          = [c8w2.name.getD "Unknown"]) :=
  ⟨rfl, rfl,
   c8_batch_resilience c8Fetch okDump "T" c8w1 c8w2 c8w3 c8w1 c8w3 1 2 3
     rfl rfl rfl rfl rfl rfl⟩

/-! ## C9: mode shape -/

/-- Replacing the value of a key that is present does not change the
ordered key list of a dict. -/
theorem dictSet_keys_of_mem (kvs : List (String × Y)) (k : String) (v : Y)
    (h : (kvs.any fun kv => kv.1 == k) = true) :
    (dictSet kvs k v).map (·.1) = kvs.map (·.1) := by
  unfold dictSet
  rw [if_pos h, List.map_map]
  apply List.map_congr_left
  intro kv _
  by_cases hk : (kv.1 == k) = true
  · have hke : kv.1 = k := by simpa using hk
    simp [Function.comp, hk, hke]
  · simp [Function.comp, hk]

/-- A successful dict lookup implies the key is present. -/
theorem dictGet_some_any (kvs : List (String × Y)) (k : String) (v : Y)
    (h : dictGet kvs k = some v) : (kvs.any fun kv => kv.1 == k) = true := by
  unfold dictGet at h
  cases hf : kvs.find? fun kv => kv.1 == k with
  | none => rw [hf] at h; exact Option.noConfusion h
  | some kv =>
    have hp := @List.find?_some _ (fun kv : String × Y => kv.1 == k) kv kvs hf
    exact List.any_eq_true.mpr ⟨kv, List.mem_of_find?_eq_some hf, hp⟩

/-- `_add_workflow_resources` only rewrites inside the resources
subtree: the top-level keys of the document are unchanged. -/
theorem add_workflow_resources_topKeys (bundle : Y) (w : Workflow) (d : Y)
    (h : add_workflow_resources bundle w = some d) :
    topKeys d = topKeys bundle := by
  unfold add_workflow_resources at h
  cases hs : w.settings with
  | none =>
    simp only [hs] at h
    injection h with h
    subst h
    rfl
  | some js =>
    simp only [hs] at h
    cases bundle with
    | nil => exact Option.noConfusion h
    | s v => exact Option.noConfusion h
    | i v => exact Option.noConfusion h
    | b v => exact Option.noConfusion h
    | l v => exact Option.noConfusion h
    | m top =>
      dsimp only at h
      split at h
      · rename_i res hres
        split at h
        · rename_i jobs hjobs
          injection h with h
          subst h
          simp only [topKeys]
          exact dictSet_keys_of_mem top "resources" _
            (dictGet_some_any top "resources" _ hres)
        · exact Option.noConfusion h
      · exact Option.noConfusion h

/-- The full-bundle skeleton always has exactly the four top-level keys
bundle, variables, targets, resources (the staging/prod additions only
touch the inside of targets). -/
theorem create_bundle_structure_topKeys (cu : Option String) (url : String)
    (w : Workflow) (bn env : String) :
    topKeys (create_bundle_structure cu url w bn env)
      = ["bundle", "variables", "targets", "resources"] := by
  unfold create_bundle_structure
  dsimp only
  split
  · rfl
  · rfl

/-- The resources-only document always has exactly the top-level key
resources. -/
theorem generate_resources_doc_topKeys (fetch : Int → Option Workflow)
    (w : Workflow) (d : Y)
    (h : generate_resources_doc fetch w = some d) : topKeys d = ["resources"] := by
  unfold generate_resources_doc at h
  cases hj : w.job_id with
  | none => simp only [hj] at h; exact Option.noConfusion h
  | some jid =>
    simp only [hj] at h
    cases hf : fetch jid with
    | none => simp only [hf] at h; exact Option.noConfusion h
    | some dw =>
      simp only [hf] at h
      exact (add_workflow_resources_topKeys emptyResources dw d h).trans rfl

/-- The full-bundle document always has exactly the four top-level keys. -/
theorem generate_bundle_doc_topKeys (fetch : Int → Option Workflow)
    (cu : Option String) (url : String) (w : Workflow) (bn env : String) (d : Y)
    (h : generate_bundle_doc fetch cu url w bn env = some d) :
    topKeys d = ["bundle", "variables", "targets", "resources"] := by
  unfold generate_bundle_doc at h
  cases hj : w.job_id with
  | none => simp only [hj] at h; exact Option.noConfusion h
  | some jid =>
    simp only [hj] at h
    cases hf : fetch jid with
    | none => simp only [hf] at h; exact Option.noConfusion h
    | some dw =>
      simp only [hf] at h
      exact (add_workflow_resources_topKeys _ dw d h).trans
        (create_bundle_structure_topKeys cu url dw bn env)

/-- C9: every translated document has the mode shape — in full-bundle
mode exactly the top-level keys bundle, variables, targets, resources;
in resources-only mode only the top-level key resources. -/
theorem c9_mode_shape (fetch : Int → Option Workflow) (cu : Option String)
    (url : String) (w : Workflow) (bn env : String) (d dr : Y) :
    (generate_bundle_doc fetch cu url w bn env = some d →
      topKeys d = ["bundle", "variables", "targets", "resources"])
    ∧ (generate_resources_doc fetch w = some dr → topKeys dr = ["resources"]) :=
  ⟨generate_bundle_doc_topKeys fetch cu url w bn env d,
   generate_resources_doc_topKeys fetch w dr⟩

/-- The concrete full-bundle document of the C9 witness. -/
def c9FullDoc : Y :=
  (generate_bundle_doc scenFetch (some "user") "https://h" scenarioWorkflow
    "bundle" "dev").getD Y.nil

/-- The concrete resources-only document of the C9 witness. -/
def c9ResDoc : Y :=
  (generate_resources_doc scenFetch scenarioWorkflow).getD Y.nil

/-- Witness for `c9_mode_shape` at the concrete scenario documents. -/
theorem c9_mode_shape_witness :
    topKeys c9FullDoc = ["bundle", "variables", "targets", "resources"]
    ∧ topKeys c9ResDoc = ["resources"] :=
  ⟨(c9_mode_shape scenFetch (some "user") "https://h" scenarioWorkflow
      "bundle" "dev" c9FullDoc c9ResDoc).1 rfl,
   (c9_mode_shape scenFetch (some "user") "https://h" scenarioWorkflow
      "bundle" "dev" c9FullDoc c9ResDoc).2 rfl⟩

/-! ## C10: library conversion -/

/-- The six library kind keys in the fixed first-match order of the
if/elif chain at lines 409-433. -/
def libKindNames : List String := ["jar", "egg", "whl", "pypi", "maven", "cran"]

/-- The first library kind the chain selects: a truthy (non-empty) jar,
egg or whl path, else a present pypi, maven or cran record. -/
def libFirstKind (lib : Library) : Option String :=
  if strTruthy (lib.jar.getD "") then some "jar"
  else if strTruthy (lib.egg.getD "") then some "egg"
  else if strTruthy (lib.whl.getD "") then some "whl"
  else if lib.pypi.isSome then some "pypi"
  else if lib.maven.isSome then some "maven"
  else if lib.cran.isSome then some "cran"
  else none

/-- Each library converts to nothing (no kind carried) or to a single
entry keyed by the first carried kind. -/
theorem convert_library_shape (lib : Library) :
    (libFirstKind lib = none ∧ convert_library lib = [])
    ∨ ∃ k v, libFirstKind lib = some k ∧ convert_library lib = [(k, v)]
        ∧ k ∈ libKindNames := by
  by_cases h1 : strTruthy (lib.jar.getD "") = true
  · exact Or.inr ⟨"jar", Y.s (lib.jar.getD ""),
      by simp [libFirstKind, h1], by simp [convert_library, h1], by decide⟩
  · by_cases h2 : strTruthy (lib.egg.getD "") = true
    · exact Or.inr ⟨"egg", Y.s (lib.egg.getD ""),
        by simp [libFirstKind, h1, h2], by simp [convert_library, h1, h2], by decide⟩
    · by_cases h3 : strTruthy (lib.whl.getD "") = true
      · exact Or.inr ⟨"whl", Y.s (lib.whl.getD ""),
          by simp [libFirstKind, h1, h2, h3], by simp [convert_library, h1, h2, h3], by decide⟩
      · cases hp : lib.pypi with
        | some p =>
          exact Or.inr ⟨"pypi", Y.m (cleanNone [("package", Y.s p.package),
              ("repo", oY Y.s p.repo)]),
            by simp [libFirstKind, h1, h2, h3, hp],
            by simp [convert_library, h1, h2, h3, hp], by decide⟩
        | none =>
          cases hm : lib.maven with
          | some mv =>
            exact Or.inr ⟨"maven", Y.m (cleanNoneOrEmptyList [
                ("coordinates", Y.s mv.coordinates),
                ("repo", oY Y.s mv.repo),
                ("exclusions", Y.l ((mv.exclusions.getD []).map Y.s))]),
              by simp [libFirstKind, h1, h2, h3, hp, hm],
              by simp [convert_library, h1, h2, h3, hp, hm], by decide⟩
          | none =>
            cases hc : lib.cran with
            | some cr =>
              exact Or.inr ⟨"cran", Y.m (cleanNone [("package", Y.s cr.package),
                  ("repo", oY Y.s cr.repo)]),
                by simp [libFirstKind, h1, h2, h3, hp, hm, hc],
                by simp [convert_library, h1, h2, h3, hp, hm, hc], by decide⟩
            | none =>
              exact Or.inl ⟨by simp [libFirstKind, h1, h2, h3, hp, hm, hc],
                by simp [convert_library, h1, h2, h3, hp, hm, hc]⟩

/-- C10: library conversion emits at most one entry per input library
(so the output is never longer than the input), each emitted entry is a
dict with exactly one kind key drawn from jar, egg, whl, pypi, maven,
cran, chosen as the first carried kind in that fixed order, and a
library carrying none of the six kinds produces no entry. -/
theorem c10_library_conversion (libs : List Library) :
    (convert_libraries libs).length ≤ libs.length
    ∧ (∀ lib, (libFirstKind lib = none → convert_library lib = [])
        ∧ ∀ k, libFirstKind lib = some k → ∃ v, convert_library lib = [(k, v)])
    ∧ (∀ y ∈ convert_libraries libs, ∃ k v, y = Y.m [(k, v)] ∧ k ∈ libKindNames) := by
  refine ⟨List.length_filterMap_le _ _, ?_, ?_⟩
  · intro lib
    rcases convert_library_shape lib with ⟨hn, he⟩ | ⟨k, v, hk, hcfg, hmem⟩
    · refine ⟨fun _ => he, ?_⟩
      intro k2 hk2
      rw [hn] at hk2
      exact Option.noConfusion hk2
    · constructor
      · intro h0
        rw [hk] at h0
        exact Option.noConfusion h0
      · intro k2 hk2
        rw [hk] at hk2
        injection hk2 with hk2
        subst hk2
        exact ⟨v, hcfg⟩
  · intro y hy
    obtain ⟨lib, hmem, hsome⟩ := List.mem_filterMap.mp hy
    rcases convert_library_shape lib with ⟨hn, he⟩ | ⟨k, v, hk, hcfg, hkmem⟩
    · rw [he] at hsome
      exact Option.noConfusion hsome
    · rw [hcfg] at hsome
      injection hsome with hsome
      exact ⟨k, v, hsome.symm, hkmem⟩

/-- The concrete library list of the C10 witness: a jar library, a
library carrying no kind, and a pypi library. -/
def c10Libs : List Library :=
  [{ jar := some "dbfs:/a.jar" }, {}, { pypi := some { package := "requests" } }]

/-- Witness for `c10_library_conversion` at the concrete library list:
two entries come out of three inputs, the jar library selects the jar
key, and the first emitted entry is a single-key dict. -/
theorem c10_library_conversion_witness :
    (convert_libraries c10Libs).length ≤ c10Libs.length
    ∧ (∃ v, convert_library { jar := some "dbfs:/a.jar" } = [("jar", v)])
    ∧ (∃ k v, Y.m [("jar", Y.s "dbfs:/a.jar")] = Y.m [(k, v)] ∧ k ∈ libKindNames) :=
  ⟨(c10_library_conversion c10Libs).1,
   ((c10_library_conversion c10Libs).2.1 { jar := some "dbfs:/a.jar" }).2 "jar" rfl,
   (c10_library_conversion c10Libs).2.2 (Y.m [("jar", Y.s "dbfs:/a.jar")])
     (List.Mem.head _)⟩
